import Mathlib

/-!
# Fruit-Frenzy-AI: verification of the entity/collision/scoring core

A shallow embedding of the arcade-game core of the repository
(`fruit.py`, `bomb.py`, `powerups.py`, `combo.py`, `game.py`,
`leaderboard.py`, `config.py`) together with proofs of the spec's
testable properties.

Conventions: Python floats are modelled as real numbers where a square
root occurs (the segment-circle geometry) and as rationals elsewhere;
Python ints are modelled as integers.  Wall-clock timestamps
(`time.time()`) are passed in explicitly as parameters.
-/

/- ── Geometry: `_segment_circle_intersect` from `src/fruit.py` ───────── -/

/-- `a = dx*dx + dy*dy`: squared length of the segment `p1 → p2`. -/
def segA (p1 p2 : ℝ × ℝ) : ℝ :=
  (p2.1 - p1.1) * (p2.1 - p1.1) + (p2.2 - p1.2) * (p2.2 - p1.2)

/-- `b = 2*(fx*dx + fy*dy)` with `f = p1 - center`. -/
def segB (p1 p2 : ℝ × ℝ) (cx cy : ℝ) : ℝ :=
  2 * ((p1.1 - cx) * (p2.1 - p1.1) + (p1.2 - cy) * (p2.2 - p1.2))

/-- `c = fx*fx + fy*fy - r*r`. -/
def segC (p1 : ℝ × ℝ) (cx cy r : ℝ) : ℝ :=
  (p1.1 - cx) * (p1.1 - cx) + (p1.2 - cy) * (p1.2 - cy) - r * r

/-- `disc = b*b - 4*a*c`: discriminant of the segment-circle quadratic. -/
def segDisc (p1 p2 : ℝ × ℝ) (cx cy r : ℝ) : ℝ :=
  segB p1 p2 cx cy * segB p1 p2 cx cy - 4 * segA p1 p2 * segC p1 cx cy r

/-- `_segment_circle_intersect(p1, p2, cx, cy, r)` from `src/fruit.py`:
zero-length segments test point containment; otherwise intersection holds
when a real root lies in `[0,1]` or the two roots straddle `[0,1]`. -/
def segmentCircleIntersect (p1 p2 : ℝ × ℝ) (cx cy r : ℝ) : Prop :=
  if segA p1 p2 = 0 then
    (p1.1 - cx) * (p1.1 - cx) + (p1.2 - cy) * (p1.2 - cy) ≤ r * r
  else if segDisc p1 p2 cx cy r < 0 then False
  else
    let t1 := (-segB p1 p2 cx cy - Real.sqrt (segDisc p1 p2 cx cy r)) / (2 * segA p1 p2)
    let t2 := (-segB p1 p2 cx cy + Real.sqrt (segDisc p1 p2 cx cy r)) / (2 * segA p1 p2)
    (0 ≤ t1 ∧ t1 ≤ 1) ∨ (0 ≤ t2 ∧ t2 ≤ 1) ∨ (t1 < 0 ∧ t2 > 1)

/-- `_seg_circle(p1, p2, cx, cy, r)` from `src/bomb.py` (textual duplicate
of the fruit-module helper). -/
def bombSegCircle (p1 p2 : ℝ × ℝ) (cx cy r : ℝ) : Prop :=
  let dx := p2.1 - p1.1
  let dy := p2.2 - p1.2
  let fx := p1.1 - cx
  let fy := p1.2 - cy
  let a := dx * dx + dy * dy
  if a = 0 then fx * fx + fy * fy ≤ r * r
  else
    let b := 2 * (fx * dx + fy * dy)
    let c := fx * fx + fy * fy - r * r
    let disc := b * b - 4 * a * c
    if disc < 0 then False
    else
      let t1 := (-b - Real.sqrt disc) / (2 * a)
      let t2 := (-b + Real.sqrt disc) / (2 * a)
      (0 ≤ t1 ∧ t1 ≤ 1) ∨ (0 ≤ t2 ∧ t2 ≤ 1) ∨ (t1 < 0 ∧ t2 > 1)

/-- `_seg_circle(p1, p2, cx, cy, r)` from `src/powerups.py` (textual
duplicate of the fruit-module helper). -/
def powerupsSegCircle (p1 p2 : ℝ × ℝ) (cx cy r : ℝ) : Prop :=
  let dx := p2.1 - p1.1
  let dy := p2.2 - p1.2
  let fx := p1.1 - cx
  let fy := p1.2 - cy
  let a := dx * dx + dy * dy
  if a = 0 then fx * fx + fy * fy ≤ r * r
  else
    let b := 2 * (fx * dx + fy * dy)
    let c := fx * fx + fy * fy - r * r
    let disc := b * b - 4 * a * c
    if disc < 0 then False
    else
      let t1 := (-b - Real.sqrt disc) / (2 * a)
      let t2 := (-b + Real.sqrt disc) / (2 * a)
      (0 ≤ t1 ∧ t1 ≤ 1) ∨ (0 ≤ t2 ∧ t2 ≤ 1) ∨ (t1 < 0 ∧ t2 > 1)

/- ── Configuration constants from `src/config.py` ──────────────────── -/

/-- `COMBO_WINDOW = 0.5` (seconds for a combo chain). -/
def COMBO_WINDOW : ℚ := 1 / 2

/-- `COMBO_THRESHOLDS = {3: 2, 5: 3, 8: 5}`, iterated in ascending key
order (`sorted(cfg.COMBO_THRESHOLDS.items())` in `combo.py`). -/
def COMBO_THRESHOLDS : List (ℕ × ℕ) := [(3, 2), (5, 3), (8, 5)]

/-- `INITIAL_SPAWN_INTERVAL = 1.2`. -/
def INITIAL_SPAWN_INTERVAL : ℚ := 6 / 5

/-- `MIN_SPAWN_INTERVAL = 0.4`. -/
def MIN_SPAWN_INTERVAL : ℚ := 2 / 5

/-- `INITIAL_FRUITS_PER_SPAWN = 2`. -/
def INITIAL_FRUITS_PER_SPAWN : ℤ := 2

/-- `MAX_FRUITS_PER_SPAWN = 6`. -/
def MAX_FRUITS_PER_SPAWN : ℤ := 6

/-- `SPAWN_INTERVAL_DECREASE = 0.1`. -/
def SPAWN_INTERVAL_DECREASE : ℚ := 1 / 10

/-- `FRUITS_PER_SPAWN_INCREASE = 1`. -/
def FRUITS_PER_SPAWN_INCREASE : ℤ := 1

/-- `MAX_HIGHSCORES = 5`. -/
def MAX_HIGHSCORES : ℕ := 5

/- ── ComboTracker from `src/combo.py` ──────────────────────────────── -/

/-- State of `ComboTracker`: slice timestamps, derived count and
multiplier, and the UI popup timer. -/
structure ComboTracker where
  timestamps : List ℚ
  combo_count : ℕ
  multiplier : ℕ
  display_timer : ℚ

/-- `ComboTracker.__init__`. -/
def comboInit : ComboTracker :=
  { timestamps := [], combo_count := 0, multiplier := 1, display_timer := 0 }

/-- `ComboTracker._update_multiplier`: start from 1, then walk the
ascending threshold table, overwriting whenever the count meets the
threshold. -/
def updateMultiplier (count : ℕ) : ℕ :=
  COMBO_THRESHOLDS.foldl (fun m tm => if tm.1 ≤ count then tm.2 else m) 1

/-- `ComboTracker.register_slice`, with the wall-clock `now` passed in
explicitly: append the new timestamp, prune entries older than the
window, recompute count and multiplier, and reset the popup timer to
1.5 s when the count reaches 3. -/
def registerSlice (s : ComboTracker) (now : ℚ) : ComboTracker :=
  let ts := (s.timestamps ++ [now]).filter (fun t => now - t ≤ COMBO_WINDOW)
  { timestamps := ts
    combo_count := ts.length
    multiplier := updateMultiplier ts.length
    display_timer := if 3 ≤ ts.length then 3 / 2 else s.display_timer }

/-- `ComboTracker.update(dt)`: prune, recompute, tick the popup timer. -/
def comboUpdate (s : ComboTracker) (now dt : ℚ) : ComboTracker :=
  let ts := s.timestamps.filter (fun t => now - t ≤ COMBO_WINDOW)
  { timestamps := ts
    combo_count := ts.length
    multiplier := updateMultiplier ts.length
    display_timer := if 0 < s.display_timer then s.display_timer - dt else s.display_timer }

/-- Modelled from the spec: "select the greatest threshold not exceeding
the current count", defaulting to 1, instantiated at the configured
table `{3: 2, 5: 3, 8: 5}`.  Used to compare the code's fold against the
spec's description of the lookup. -/
def specGreatestMultiplier (count : ℕ) : ℕ :=
  if 8 ≤ count then 5 else if 5 ≤ count then 3 else if 3 ≤ count then 2 else 1

/- ── Fruit and GiantFruit from `src/fruit.py` ──────────────────────── -/

/-- Gameplay-relevant state of `Fruit` (sprite surfaces omitted). -/
structure Fruit where
  name : String
  points : ℤ
  radius : ℚ
  x : ℚ
  y : ℚ
  vx : ℚ
  vy : ℚ
  angle : ℚ
  angular_vel : ℚ
  sliced : Bool
  alive : Bool
  half_offset_x : ℚ
  half_timer : ℚ

/-- `Fruit.slice`: mark as sliced and nudge the vertical velocity up to
at most `-2`. -/
def Fruit.slice (f : Fruit) : Fruit :=
  { f with sliced := true, vy := min f.vy (-2) }

/-- The loop body of `Fruit.check_slice`: test every consecutive pair of
trail points against the circle. -/
def trailHitsCircle (cx cy r : ℝ) : List (ℤ × ℤ) → Prop
  | p :: q :: rest =>
      segmentCircleIntersect ((p.1 : ℝ), (p.2 : ℝ)) ((q.1 : ℝ), (q.2 : ℝ)) cx cy r ∨
      trailHitsCircle cx cy r (q :: rest)
  | _ => False

/-- `Fruit.check_slice(trail)`: false when already sliced or the trail
has fewer than two points; otherwise scan consecutive segments. -/
def Fruit.checkSlice (f : Fruit) (trail : List (ℤ × ℤ)) : Prop :=
  if f.sliced = true ∨ trail.length < 2 then False
  else trailHitsCircle (f.x : ℝ) (f.y : ℝ) (f.radius : ℝ) trail

/-- State of `GiantFruit`, extending `Fruit` with the boss fields set in
`GiantFruit.__init__` (`max_health = 10`, `health = max_health`,
`hit_cooldown = 0.0`). -/
structure GiantFruit extends Fruit where
  max_health : ℤ
  health : ℤ
  hit_cooldown : ℚ
  scale_pulse : ℚ

/-- `GiantFruit.slice`: decrement health and set the 0.15 s hit
cooldown; flip `sliced` (with the upward nudge) only once health drops
to zero or below, otherwise juggle the fruit (`vy -= 2`, random `vx`
nudge passed in as `dvx`). -/
def GiantFruit.slice (g : GiantFruit) (dvx : ℚ) : GiantFruit :=
  let health' := g.health - 1
  if health' ≤ 0 then
    { g with health := health', hit_cooldown := 3 / 20,
             sliced := true, vy := min g.vy (-2) }
  else
    { g with health := health', hit_cooldown := 3 / 20,
             vy := g.vy - 2, vx := g.vx + dvx }

/-- `GiantFruit.check_slice(trail)`: ignore every trail while the hit
cooldown is positive, otherwise defer to `Fruit.check_slice`. -/
def GiantFruit.checkSlice (g : GiantFruit) (trail : List (ℤ × ℤ)) : Prop :=
  if 0 < g.hit_cooldown then False
  else Fruit.checkSlice g.toFruit trail

/-- `n` successive qualifying hits on a giant fruit (the random
horizontal nudge, irrelevant to health and `sliced`, taken as 0). -/
def GiantFruit.sliceN (g : GiantFruit) : ℕ → GiantFruit
  | 0 => g
  | n + 1 => GiantFruit.slice (GiantFruit.sliceN g n) 0

/- ── FruitManager difficulty scaling from `src/fruit.py` ───────────── -/

/-- The difficulty-relevant state of `FruitManager`. -/
structure FruitManagerState where
  spawn_interval : ℚ
  fruits_per_spawn : ℤ

/-- `FruitManager.__init__`: initial spawn parameters. -/
def fruitManagerInit : FruitManagerState :=
  { spawn_interval := INITIAL_SPAWN_INTERVAL,
    fruits_per_spawn := INITIAL_FRUITS_PER_SPAWN }

/-- `FruitManager.increase_difficulty`: clamp the shrinking spawn
interval at the floor and the growing batch size at the ceiling. -/
def increaseDifficulty (m : FruitManagerState) : FruitManagerState :=
  { spawn_interval := max MIN_SPAWN_INTERVAL (m.spawn_interval - SPAWN_INTERVAL_DECREASE),
    fruits_per_spawn := min MAX_FRUITS_PER_SPAWN (m.fruits_per_spawn + FRUITS_PER_SPAWN_INCREASE) }

/-- `n` difficulty increases applied to a freshly constructed manager. -/
def iterDifficulty (n : ℕ) : FruitManagerState :=
  increaseDifficulty^[n] fruitManagerInit

/- ── Bomb from `src/bomb.py` and the orchestrator from `src/game.py` ── -/

/-- `GameState` from `src/game.py`. -/
inductive GameState where
  | menu
  | playing
  | paused
  | game_over
  deriving DecidableEq

/-- Gameplay-relevant state of `Bomb`. -/
structure Bomb where
  radius : ℚ
  x : ℚ
  y : ℚ
  vx : ℚ
  vy : ℚ
  angle : ℚ
  angular_vel : ℚ
  sliced : Bool
  alive : Bool
  flash_timer : ℚ

/-- `Bomb.slice`: mark the bomb as sliced. -/
def Bomb.slice (b : Bomb) : Bomb :=
  { b with sliced := true }

/-- The scoring-relevant state of `Game` for a fruit hit. -/
structure GameScores where
  score_p1 : ℤ
  score_p2 : ℤ
  combo : ComboTracker

/-- The fruit-hit branch of `Game._update_playing` (lines 224-240):
`fruit.slice()`, `combo.register_slice()`, read the multiplier, and add
`fruit.points * mult` to the scoring hand. -/
def processFruitSlice (g : GameScores) (f : Fruit) (handIdx : ℕ) (now : ℚ) :
    GameScores × Fruit :=
  let f' := Fruit.slice f
  let combo' := registerSlice g.combo now
  let pts := f.points * (combo'.multiplier : ℤ)
  if handIdx = 0 then
    ({ g with combo := combo', score_p1 := g.score_p1 + pts }, f')
  else
    ({ g with combo := combo', score_p2 := g.score_p2 + pts }, f')

/-- The lives/shield-relevant state of `Game` for a bomb hit. -/
structure BombHitState where
  lives : ℤ
  shield_active : Bool
  state : GameState

/-- The bomb-hit branch of `Game._update_playing` (lines 243-258):
`bomb.slice()`, then either consume the shield or lose a life, entering
the game-over state when lives drop to zero or below. -/
def processBombSlice (g : BombHitState) (b : Bomb) : BombHitState × Bomb :=
  let b' := Bomb.slice b
  if g.shield_active = true then
    ({ g with shield_active := false }, b')
  else
    let lives' := g.lives - 1
    if lives' ≤ 0 then
      ({ g with lives := lives', state := GameState.game_over }, b')
    else
      ({ g with lives := lives' }, b')

/- ── Leaderboard from `src/leaderboard.py` ─────────────────────────── -/

/-- `list.sort(reverse=True)` / `sorted(data, reverse=True)`: stable
descending sort on integers. -/
def sortScoresDesc (l : List ℤ) : List ℤ :=
  l.insertionSort (fun a b => b ≤ a)

/-- `Leaderboard._load`, with the file system abstracted: `none` models
a missing file, `some none` a file whose contents raise during
parsing/sorting, and `some (some data)` a successfully parsed list. -/
def leaderboardLoad (file : Option (Option (List ℤ))) : List ℤ :=
  match file with
  | none => []
  | some none => []
  | some (some data) => (sortScoresDesc data).take MAX_HIGHSCORES

/-- `Leaderboard.add_score(score)`: append, re-sort descending, truncate
to the top `MAX_HIGHSCORES`. -/
def addScore (scores : List ℤ) (s : ℤ) : List ℤ :=
  (sortScoresDesc (scores ++ [s])).take MAX_HIGHSCORES

instance : IsTotal ℤ (fun a b => b ≤ a) :=
  ⟨fun a b => le_total b a⟩

instance : IsTrans ℤ (fun a b => b ≤ a) :=
  ⟨fun _ _ _ h1 h2 => le_trans h2 h1⟩

/- ── Theorems ──────────────────────────────────────────────────────── -/

/-- Nondegenerate segments have nonzero `a`. -/
theorem segA_ne_zero_of_ne {p1 p2 : ℝ × ℝ} (hp : p1 ≠ p2) : segA p1 p2 ≠ 0 := by
  intro h
  apply hp
  unfold segA at h
  have hx : p2.1 - p1.1 = 0 := by nlinarith [sq_nonneg (p2.1 - p1.1), sq_nonneg (p2.2 - p1.2)]
  have hy : p2.2 - p1.2 = 0 := by nlinarith [sq_nonneg (p2.1 - p1.1), sq_nonneg (p2.2 - p1.2)]
  exact Prod.ext (by linarith) (by linarith)

/-- C1: when the quadratic has real roots with `t1 < 0` and `t2 > 1`
(the straddling case of the final disjunction), the segment-circle test
of `src/fruit.py` reports an intersection. -/
theorem straddling_case_intersects (p1 p2 : ℝ × ℝ) (cx cy r : ℝ)
    (hp : p1 ≠ p2) (hdisc : 0 ≤ segDisc p1 p2 cx cy r)
    (h1 : (-segB p1 p2 cx cy - Real.sqrt (segDisc p1 p2 cx cy r)) / (2 * segA p1 p2) < 0)
    (h2 : (-segB p1 p2 cx cy + Real.sqrt (segDisc p1 p2 cx cy r)) / (2 * segA p1 p2) > 1) :
    segmentCircleIntersect p1 p2 cx cy r := by
  unfold segmentCircleIntersect
  rw [if_neg (segA_ne_zero_of_ne hp), if_neg (not_lt.mpr hdisc)]
  exact Or.inr (Or.inr ⟨h1, h2⟩)

/-- Witness for C1: the segment `(0,0) → (2,0)` lies inside the circle of
radius 3 centred at `(1,0)`; the roots are `t1 = -1 < 0`, `t2 = 2 > 1`. -/
theorem straddling_case_witness : segmentCircleIntersect (0, 0) (2, 0) 1 0 3 := by
  have hd : segDisc ((0 : ℝ), (0 : ℝ)) (2, 0) 1 0 3 = 144 := by
    norm_num [segDisc, segA, segB, segC]
  have hs : Real.sqrt (144 : ℝ) = 12 := by
    rw [show (144 : ℝ) = 12 ^ 2 by norm_num]
    exact Real.sqrt_sq (by norm_num)
  apply straddling_case_intersects
  · intro h
    have := congrArg Prod.fst h
    norm_num at this
  · rw [hd]; norm_num
  · rw [hd, hs]
    norm_num [segA, segB]
  · rw [hd, hs]
    norm_num [segA, segB]

/-- C7: a zero-length segment (`p1 = p1`) intersects the circle of
nonnegative radius `r` iff the distance from `p1` to the centre is at
most `r`; the `a = 0` branch decides this without touching the roots. -/
theorem degenerate_segment_iff (p1 : ℝ × ℝ) (cx cy r : ℝ) (hr : 0 ≤ r) :
    segmentCircleIntersect p1 p1 cx cy r ↔
      Real.sqrt ((p1.1 - cx) * (p1.1 - cx) + (p1.2 - cy) * (p1.2 - cy)) ≤ r := by
  have ha : segA p1 p1 = 0 := by unfold segA; ring
  unfold segmentCircleIntersect
  rw [if_pos ha]
  have hs : (0 : ℝ) ≤ (p1.1 - cx) * (p1.1 - cx) + (p1.2 - cy) * (p1.2 - cy) :=
    add_nonneg (mul_self_nonneg _) (mul_self_nonneg _)
  constructor
  · intro h
    calc Real.sqrt ((p1.1 - cx) * (p1.1 - cx) + (p1.2 - cy) * (p1.2 - cy))
        ≤ Real.sqrt (r * r) := Real.sqrt_le_sqrt h
      _ = r := Real.sqrt_mul_self hr
  · intro h
    have hm := mul_self_le_mul_self (Real.sqrt_nonneg _) h
    rwa [Real.mul_self_sqrt hs] at hm

/-- Witness for C7: the point `(3,4)` lies at distance exactly 5 from the
origin, so the degenerate segment at `(3,4)` intersects the circle of
radius 5 centred at the origin. -/
theorem degenerate_segment_witness : segmentCircleIntersect (3, 4) (3, 4) 0 0 5 := by
  apply (degenerate_segment_iff (3, 4) 0 0 5 (by norm_num)).mpr
  have h25 : (((3 : ℝ), (4 : ℝ)).1 - 0) * (((3 : ℝ), (4 : ℝ)).1 - 0) +
      (((3 : ℝ), (4 : ℝ)).2 - 0) * (((3 : ℝ), (4 : ℝ)).2 - 0) = 25 := by norm_num
  rw [h25, show (25 : ℝ) = 5 ^ 2 by norm_num, Real.sqrt_sq (by norm_num)]

/-- C10: the three duplicated private segment-circle helpers in
`fruit.py`, `bomb.py` and `powerups.py` compute the same predicate. -/
theorem seg_circle_helpers_agree (p1 p2 : ℝ × ℝ) (cx cy r : ℝ) :
    (bombSegCircle p1 p2 cx cy r ↔ segmentCircleIntersect p1 p2 cx cy r) ∧
    (powerupsSegCircle p1 p2 cx cy r ↔ segmentCircleIntersect p1 p2 cx cy r) := by
  constructor
  · unfold bombSegCircle segmentCircleIntersect segDisc segA segB segC
    exact Iff.rfl
  · unfold powerupsSegCircle segmentCircleIntersect segDisc segA segB segC
    exact Iff.rfl

/-- C3: the fold in `_update_multiplier` computes the
greatest-threshold-not-exceeding-count lookup (default 1); after any
`register_slice` the stored multiplier matches that lookup on the stored
count and every surviving timestamp is within the combo window of `now`;
the same holds after `update`; and three slices registered within one
window starting from a fresh tracker yield multiplier `table[3] = 2`. -/
theorem combo_multiplier_spec :
    (∀ count, updateMultiplier count = specGreatestMultiplier count) ∧
    (∀ (s : ComboTracker) (now : ℚ),
      (registerSlice s now).multiplier =
        specGreatestMultiplier (registerSlice s now).combo_count ∧
      ∀ t ∈ (registerSlice s now).timestamps, now - t ≤ COMBO_WINDOW) ∧
    (∀ (s : ComboTracker) (now dt : ℚ),
      (comboUpdate s now dt).multiplier =
        specGreatestMultiplier (comboUpdate s now dt).combo_count) ∧
    (∀ t0 t1 t2 : ℚ, t0 ≤ t1 → t1 ≤ t2 → t2 - t0 ≤ COMBO_WINDOW →
      (registerSlice (registerSlice (registerSlice comboInit t0) t1) t2).multiplier = 2) := by
  have hfold : ∀ count, updateMultiplier count = specGreatestMultiplier count := by
    intro count
    rfl
  refine ⟨hfold, ?_, ?_, ?_⟩
  · intro s now
    constructor
    · simp only [registerSlice]
      exact hfold _
    · intro t ht
      simp only [registerSlice, List.mem_filter, decide_eq_true_eq] at ht
      exact ht.2
  · intro s now dt
    simp only [comboUpdate]
    exact hfold _
  · intro t0 t1 t2 h01 h12 h02
    have hW : (0 : ℚ) ≤ COMBO_WINDOW := by norm_num [COMBO_WINDOW]
    have hA : t2 ≤ COMBO_WINDOW + t0 := by linarith
    have hB : t1 ≤ COMBO_WINDOW + t0 := by linarith
    have hC : t0 ≤ COMBO_WINDOW + t0 := by linarith
    have hD : t2 ≤ COMBO_WINDOW + t1 := by linarith
    have hE : t1 ≤ COMBO_WINDOW + t1 := by linarith
    have hF : t2 ≤ COMBO_WINDOW + t2 := by linarith
    simp [registerSlice, comboInit, hA, hB, hC, hD, hE, hF, updateMultiplier,
      COMBO_THRESHOLDS]

/-- Witness for C3: three slices at times 0, 0.1, 0.2 (all within the
0.5 s window) yield multiplier 2. -/
theorem combo_multiplier_witness :
    (registerSlice (registerSlice (registerSlice comboInit 0) (1 / 10)) (2 / 10)).multiplier = 2 :=
  combo_multiplier_spec.2.2.2 0 (1 / 10) (2 / 10) (by norm_num) (by norm_num)
    (by norm_num [COMBO_WINDOW])

/-- C2: slicing an unsliced fruit worth 10 points with hand 0 while the
post-registration combo multiplier is 3 adds exactly 30 to `score_p1`
(and marks the fruit sliced); the other hand's score is untouched. -/
theorem fruit_slice_scoring (g : GameScores) (f : Fruit) (now : ℚ)
    (hpts : f.points = 10) (hmult : (registerSlice g.combo now).multiplier = 3) :
    (processFruitSlice g f 0 now).1.score_p1 = g.score_p1 + 30 ∧
    (processFruitSlice g f 0 now).1.score_p2 = g.score_p2 ∧
    (processFruitSlice g f 0 now).2.sliced = true := by
  simp [processFruitSlice, Fruit.slice, hpts, hmult]

/-- Witness for C2: a tracker holding four fresh timestamps reaches
combo count 5 on the next slice, hence multiplier 3, and a 10-point
fruit scores 30. -/
theorem fruit_slice_scoring_witness :
    (processFruitSlice
      { score_p1 := 0, score_p2 := 0,
        combo := { timestamps := [0, 0, 0, 0], combo_count := 4, multiplier := 2,
                   display_timer := 0 } }
      { name := "apple", points := 10, radius := 30, x := 100, y := 200, vx := 1,
        vy := -10, angle := 0, angular_vel := 2, sliced := false, alive := true,
        half_offset_x := 0, half_timer := 0 }
      0 0).1.score_p1 = 0 + 30 :=
  (fruit_slice_scoring _ _ 0 rfl
    (by norm_num [registerSlice, COMBO_WINDOW, updateMultiplier, COMBO_THRESHOLDS])).1

/-- C8: `Fruit.slice` sets `sliced`, replaces `vy` by `min vy (-2)`, and
is idempotent: slicing twice equals slicing once. -/
theorem fruit_slice_idempotent (f : Fruit) :
    (Fruit.slice f).sliced = true ∧ (Fruit.slice f).vy = min f.vy (-2) ∧
    Fruit.slice (Fruit.slice f) = Fruit.slice f := by
  refine ⟨rfl, rfl, ?_⟩
  unfold Fruit.slice
  rw [min_assoc, min_self]

/-- C5: each `GiantFruit.slice` decrements health by one and arms the
0.15 s hit cooldown; `check_slice` rejects every trail while the
cooldown is positive; and starting from a fresh boss (`health =
max_health = 10`, unsliced), `sliced` is true exactly once at least
`max_health` hits have landed. -/
theorem giant_fruit_health_spec (g0 : GiantFruit)
    (hm : g0.max_health = 10) (h0 : g0.health = g0.max_health)
    (hs : g0.sliced = false) :
    (∀ (g : GiantFruit) (dvx : ℚ),
      (GiantFruit.slice g dvx).health = g.health - 1 ∧
      (GiantFruit.slice g dvx).hit_cooldown = 3 / 20) ∧
    (∀ (g : GiantFruit) (trail : List (ℤ × ℤ)),
      0 < g.hit_cooldown → ¬ GiantFruit.checkSlice g trail) ∧
    (∀ n : ℕ, (GiantFruit.sliceN g0 n).health = 10 - (n : ℤ) ∧
      ((GiantFruit.sliceN g0 n).sliced = true ↔ 10 ≤ n)) := by
  have hslice : ∀ (g : GiantFruit) (dvx : ℚ),
      (GiantFruit.slice g dvx).health = g.health - 1 ∧
      ((GiantFruit.slice g dvx).sliced = true ↔ (g.health - 1 ≤ 0 ∨ g.sliced = true)) := by
    intro g dvx
    by_cases hle : g.health - 1 ≤ 0 <;> simp [GiantFruit.slice, hle]
  refine ⟨?_, ?_, ?_⟩
  · intro g dvx
    refine ⟨(hslice g dvx).1, ?_⟩
    by_cases hle : g.health - 1 ≤ 0 <;> simp [GiantFruit.slice, hle]
  · intro g trail hpos
    simp [GiantFruit.checkSlice, hpos]
  · intro n
    induction n with
    | zero =>
      refine ⟨?_, ?_⟩
      · simp [GiantFruit.sliceN, h0, hm]
      · simp [GiantFruit.sliceN, hs]
    | succ n ih =>
      obtain ⟨ih1, ih2⟩ := ih
      refine ⟨?_, ?_⟩
      · show (GiantFruit.slice (GiantFruit.sliceN g0 n) 0).health = _
        rw [(hslice _ 0).1, ih1]
        push_cast
        ring
      · show (GiantFruit.slice (GiantFruit.sliceN g0 n) 0).sliced = true ↔ _
        rw [(hslice _ 0).2, ih1, ih2]
        omega

/-- Witness for C5: a concrete fresh giant fruit is sliced after exactly
10 hits. -/
theorem giant_fruit_witness :
    (GiantFruit.sliceN
      ⟨⟨"watermelon", 100, 110, 400, 300, 1, -12, 0, 2, false, true, 0, 0⟩,
       10, 10, 0, 0⟩ 10).sliced = true :=
  ((giant_fruit_health_spec _ rfl rfl rfl).2.2 10).2.mpr (by norm_num)

/-- C4: along any number of `increase_difficulty` calls on a fresh
`FruitManager`, the spawn interval never drops below the floor and is
non-increasing, and the batch size never exceeds the ceiling and is
non-decreasing. -/
theorem difficulty_monotone_bounded :
    ∀ n : ℕ,
      MIN_SPAWN_INTERVAL ≤ (iterDifficulty n).spawn_interval ∧
      (iterDifficulty (n + 1)).spawn_interval ≤ (iterDifficulty n).spawn_interval ∧
      (iterDifficulty n).fruits_per_spawn ≤ MAX_FRUITS_PER_SPAWN ∧
      (iterDifficulty n).fruits_per_spawn ≤ (iterDifficulty (n + 1)).fruits_per_spawn := by
  have hstep : ∀ m : ℕ, iterDifficulty (m + 1) = increaseDifficulty (iterDifficulty m) := by
    intro m
    unfold iterDifficulty
    rw [Function.iterate_succ_apply']
  have hfloor : ∀ m : ℕ, MIN_SPAWN_INTERVAL ≤ (iterDifficulty m).spawn_interval := by
    intro m
    cases m with
    | zero =>
      norm_num [iterDifficulty, fruitManagerInit, MIN_SPAWN_INTERVAL, INITIAL_SPAWN_INTERVAL]
    | succ k =>
      rw [hstep]
      exact le_max_left _ _
  have hceil : ∀ m : ℕ, (iterDifficulty m).fruits_per_spawn ≤ MAX_FRUITS_PER_SPAWN := by
    intro m
    cases m with
    | zero =>
      norm_num [iterDifficulty, fruitManagerInit, MAX_FRUITS_PER_SPAWN, INITIAL_FRUITS_PER_SPAWN]
    | succ k =>
      rw [hstep]
      exact min_le_left _ _
  intro n
  refine ⟨hfloor n, ?_, hceil n, ?_⟩
  · rw [hstep]
    show max MIN_SPAWN_INTERVAL ((iterDifficulty n).spawn_interval - SPAWN_INTERVAL_DECREASE) ≤ _
    exact max_le (hfloor n)
      (sub_le_self _ (by norm_num [SPAWN_INTERVAL_DECREASE]))
  · rw [hstep]
    show _ ≤ min MAX_FRUITS_PER_SPAWN ((iterDifficulty n).fruits_per_spawn + FRUITS_PER_SPAWN_INCREASE)
    exact le_min (hceil n)
      (le_add_of_nonneg_right (by norm_num [FRUITS_PER_SPAWN_INCREASE]))

/-- C6: slicing a bomb in the playing state marks the bomb sliced and
then takes exactly one of two branches: an active shield is consumed
with lives untouched, otherwise lives drop by one and the game enters
the game-over state exactly when the remaining lives are zero. -/
theorem bomb_slice_outcome (g : BombHitState) (b : Bomb)
    (hplay : g.state = GameState.playing) (hlives : 1 ≤ g.lives) :
    (processBombSlice g b).2.sliced = true ∧
    (g.shield_active = true →
      (processBombSlice g b).1 = { g with shield_active := false }) ∧
    (g.shield_active = false →
      (processBombSlice g b).1.lives = g.lives - 1 ∧
      (processBombSlice g b).1.shield_active = false ∧
      ((processBombSlice g b).1.state = GameState.game_over ↔ g.lives - 1 = 0)) := by
  refine ⟨?_, ?_, ?_⟩
  · by_cases hsh : g.shield_active = true <;>
      by_cases hl : g.lives - 1 ≤ 0 <;>
      simp [processBombSlice, Bomb.slice, hsh, hl]
  · intro hsh
    simp [processBombSlice, hsh]
  · intro hsh
    by_cases hl : g.lives - 1 ≤ 0
    · have hz : g.lives - 1 = 0 := by omega
      simp [processBombSlice, hsh, hl, hz]
    · have hnz : ¬(g.lives - 1 = 0) := by omega
      simp [processBombSlice, hsh, hl, hnz, hplay]

/-- Witness for C6: an unshielded hit at 1 life enters game over with 0
lives. -/
theorem bomb_slice_witness :
    (processBombSlice
      { lives := 1, shield_active := false, state := GameState.playing }
      { radius := 30, x := 100, y := 200, vx := 1, vy := -10, angle := 0,
        angular_vel := 1, sliced := false, alive := true, flash_timer := 0 }).1.state =
      GameState.game_over :=
  ((bomb_slice_outcome _ _ rfl (by norm_num)).2.2 rfl).2.2.mpr (by norm_num)

/-- C9: loading from a missing file or an unreadable one yields the
empty list, and `add_score` always leaves a descending list of at most
`MAX_HIGHSCORES` entries that is a prefix-truncation of a descending
rearrangement of the old scores with the new score appended. -/
theorem leaderboard_spec :
    leaderboardLoad none = [] ∧
    leaderboardLoad (some none) = [] ∧
    ∀ (scores : List ℤ) (s : ℤ),
      (addScore scores s).Sorted (fun a b => b ≤ a) ∧
      (addScore scores s).length ≤ MAX_HIGHSCORES ∧
      (addScore scores s).Sublist (sortScoresDesc (scores ++ [s])) ∧
      (sortScoresDesc (scores ++ [s])).Perm (scores ++ [s]) := by
  refine ⟨rfl, rfl, ?_⟩
  intro scores s
  refine ⟨?_, ?_, ?_, ?_⟩
  · exact List.Pairwise.sublist (List.take_sublist _ _)
      (List.sorted_insertionSort (fun a b => b ≤ a) _)
  · rw [addScore, List.length_take]
    exact min_le_left _ _
  · exact List.take_sublist _ _
  · exact List.perm_insertionSort _ _
